import Mathlib

/-!
Verification development for the amptune seismic amplitude-tuning tool.

The C++ sources are shallowly embedded as follows.

* `float` data values are modelled as exact rationals (`ℚ`) wherever the
  code only moves values around; the claims under study are structural
  (which formula is applied to which cell), not about rounding.
* The distance-transform working values are `Option ℚ`, where `none`
  models the IEEE `+inf` used by the code as the initial foreground
  distance (`std::numeric_limits<float>::infinity()`).
* Values that can become infinite or NaN (the blend-weight mask and the
  multiplier arithmetic) are modelled by the explicit type `Flt` with
  IEEE-754 semantics for the few operations the code performs on them.
* `std::sqrt` is an irrational real function; it is passed in as an
  explicit parameter `sq : ℚ → ℚ` to the functions that call it
  (`distanceTransformEDT` via the diagonal step, `calculateRMS`).
  Every theorem below holds for an arbitrary `sq`.
* Machine integers: byte and bit-pattern arithmetic in the SEG-Y writer
  uses `ℕ` with explicit `% 2^w` where the C++ types wrap.
* C++ exceptions are modelled with `Except String`, carrying the exact
  message of the `std::runtime_error` / `std::invalid_argument` thrown.
-/

namespace Amptune

/-! ### Generic 2-D array helpers (std::vector<std::vector<T>> access) -/

/-- Read cell `(i, j)` of a 2-D array, with a default for out-of-range
access (out-of-range access is UB in the C++; it never happens on the
paths exercised by the claims). -/
def get2 {α : Type} (m : List (List α)) (i j : ℕ) (d : α) : α :=
  (m.getD i []).getD j d

/-- Write cell `(i, j)` of a 2-D array (`m[i][j] = v`). -/
def set2 {α : Type} (m : List (List α)) (i j : ℕ) (v : α) : List (List α) :=
  m.set i ((m.getD i []).set j v)

/-- `m` is a rectangular grid with `nt` rows of `ns` entries each. -/
def IsGrid {α : Type} (m : List (List α)) (nt ns : ℕ) : Prop :=
  m.length = nt ∧ ∀ row ∈ m, row.length = ns

instance {α : Type} [DecidableEq α] (m : List (List α)) (nt ns : ℕ) :
    Decidable (IsGrid m nt ns) := by
  unfold IsGrid; infer_instance

/-- The list of integers `a, a+1, …, b` (empty when `b < a`): the index
set of a C++ loop `for (t = a; t <= b; ++t)`. -/
def intRange (a b : ℤ) : List ℤ :=
  (List.range (b + 1 - a).toNat).map fun k : ℕ => a + (k : ℤ)

/-- `static_cast<int>` of an exactly represented value: truncation
toward zero (floor for non-negative values, ceiling for negative). -/
def ratTrunc (q : ℚ) : ℤ := if 0 ≤ q then ⌊q⌋ else ⌈q⌉

/-- Rounding to the nearest integer (half up); used only to state the
spec's `round(time/dt)` claim, which the code does not implement. -/
def roundQ (q : ℚ) : ℤ := ⌊q + 1/2⌋

lemma foldl_preserve {α β : Type} (P : β → Prop) (f : β → α → β)
    (hf : ∀ b a, P b → P (f b a)) :
    ∀ (l : List α) (b : β), P b → P (l.foldl f b) := by
  intro l
  induction l with
  | nil => intro b hb; exact hb
  | cons a l ih => intro b hb; exact ih _ (hf b a hb)

lemma set_oob {α : Type} : ∀ (l : List α) (i : ℕ) (a : α),
    l.length ≤ i → l.set i a = l := by
  intro l
  induction l with
  | nil => intro i a _; cases i <;> rfl
  | cons x xs ih =>
      intro i a h
      cases i with
      | zero => simp at h
      | succ n => simpa using ih n a (by simpa using h)

lemma getD_mem_of_lt {α : Type} (l : List α) (i : ℕ) (d : α)
    (h : i < l.length) : l.getD i d ∈ l := by
  rw [List.getD_eq_getElem?_getD, List.getElem?_eq_getElem h]
  simp [List.getElem_mem]

lemma getD_set_self {α : Type} : ∀ (l : List α) (i : ℕ) (v d : α),
    i < l.length → (l.set i v).getD i d = v := by
  intro l
  induction l with
  | nil => intro i v d h; simp at h
  | cons x xs ih =>
      intro i v d h
      cases i with
      | zero => rfl
      | succ n => simpa using ih n v d (by simpa using h)

lemma getD_set_ne {α : Type} : ∀ (l : List α) (i k : ℕ) (v d : α),
    k ≠ i → (l.set i v).getD k d = l.getD k d := by
  intro l
  induction l with
  | nil => intro i k v d h; simp
  | cons x xs ih =>
      intro i k v d h
      cases i with
      | zero =>
        cases k with
        | zero => exact absurd rfl h
        | succ m => rfl
      | succ n =>
        cases k with
        | zero => rfl
        | succ m => simpa using ih n m v d (by omega)

lemma isGrid_set2 {α : Type} {m : List (List α)} {nt ns : ℕ} (i j : ℕ) (v : α)
    (h : IsGrid m nt ns) : IsGrid (set2 m i j v) nt ns := by
  by_cases hi : i < m.length
  · obtain ⟨hl, hr⟩ := h
    refine ⟨by simpa [set2] using hl, ?_⟩
    intro row hrow
    rcases List.mem_or_eq_of_mem_set hrow with h1 | h1
    · exact hr _ h1
    · subst h1
      simpa using hr _ (getD_mem_of_lt m i [] hi)
  · rw [set2, set_oob m i _ (by omega)]
    exact h

/-- Reading a cell just written, at a valid index. -/
lemma get2_set2_eq {α : Type} (m : List (List α)) (i j : ℕ) (v d : α)
    (hi : i < m.length) (hj : j < (m.getD i []).length) :
    get2 (set2 m i j v) i j d = v := by
  rw [get2, set2, getD_set_self _ _ _ _ (by simpa using hi),
    getD_set_self _ _ _ _ hj]

/-- Writing one cell leaves every other cell unchanged. -/
lemma get2_set2_ne {α : Type} (m : List (List α)) (i j a b : ℕ) (v d : α)
    (hne : a ≠ i ∨ b ≠ j) :
    get2 (set2 m i j v) a b d = get2 m a b d := by
  by_cases hia : a = i
  · subst hia
    have hb : b ≠ j := by tauto
    by_cases hi : a < m.length
    · rw [get2, set2, getD_set_self _ _ _ _ (by simpa using hi),
        getD_set_ne _ _ _ _ _ hb, get2]
    · rw [set2, set_oob m a _ (by omega)]
  · rw [get2, set2, getD_set_ne _ _ _ _ _ hia, get2]

lemma mem_intRange {x a b : ℤ} : x ∈ intRange a b ↔ a ≤ x ∧ x ≤ b := by
  simp only [intRange, List.mem_map, List.mem_range]
  constructor
  · rintro ⟨k, hk, rfl⟩
    constructor <;> omega
  · intro h
    exact ⟨(x - a).toNat, by omega, by omega⟩

/-! ### SEG-Y writer (src/ioutils/segy_writer.cpp)

Byte blobs are lists of naturals (each entry a byte value); sample data
passed to the writer is represented by the IEEE-754 bit patterns of the
`float` samples, since `ieeeToIbm` operates on the bit pattern. -/

/-- `swapBytes16`: `(val << 8) | (val >> 8)` on a `uint16_t`.  The two
byte fields of the OR are disjoint, so the OR equals the sum of the
shifted bytes. -/
def swapBytes16 (v : ℕ) : ℕ :=
  (v % 65536 % 256) * 256 + v % 65536 / 256

/-- `swapBytes32`: full byte reversal of a `uint32_t` (the two shuffle
lines of the C++ compose to reversing the four bytes). -/
def swapBytes32 (v : ℕ) : ℕ :=
  let w := v % 4294967296
  (w % 256) * 16777216 + (w / 256 % 256) * 65536 + (w / 65536 % 256) * 256 +
    w / 16777216

/-- Exponent-correction table `it[4]` of `SegyWriter::ieeeToIbm`. -/
def itTable : List ℕ := [0x21200000, 0x21400000, 0x21800000, 0x22100000]

/-- Mantissa-multiplier table `mt[4]` of `SegyWriter::ieeeToIbm`. -/
def mtTable : List ℕ := [2, 4, 8, 1]

/-- `SegyWriter::ieeeToIbm` on the IEEE bit pattern of the input float.
All intermediate values fit in 32 bits (the masked fields are small
enough that the additions cannot wrap), so no `% 2^32` is needed. -/
def ieeeToIbm (ieee : ℕ) : ℕ :=
  if ieee = 0 then 0
  else
    let ix := (ieee &&& 0x01800000) >>> 23
    let iexp := ((ieee &&& 0x7e000000) >>> 1) + itTable.getD ix 0
    let manthi := (mtTable.getD ix 0 * (ieee &&& 0x007fffff)) >>> 3
    let ibm_bits := (manthi + iexp) ||| (ieee &&& 0x80000000)
    if ieee &&& 0x7fffffff ≠ 0 then ibm_bits else 0

/-- Little-endian memory image of a `uint32_t` (the host is assumed
little-endian, as the byte-swapping code requires). -/
def bytes32LE (w : ℕ) : List ℕ :=
  [w % 256, w / 256 % 256, w / 65536 % 256, w / 16777216 % 256]

/-- The reference SEG-Y file's headers held by a `SegyWriter`. -/
structure SegyWriterRef where
  text_header : List ℕ
  binary_header : List ℕ

/-- `SegyWriter::writeBinaryHeader`: copy the reference binary header and
patch bytes 16–17 (sample interval in µs, big-endian) and bytes 20–21
(samples per trace, big-endian).  `memcpy` of the byte-swapped
`uint16_t` writes its little-endian image, i.e. big-endian order of the
original value. -/
def writeBinaryHeaderBytes (bh : List ℕ) (sample_interval : ℚ)
    (num_samples : ℕ) : List ℕ :=
  let dt_us := (ratTrunc (sample_interval * 1000000)).toNat % 65536
  let dt_sw := swapBytes16 dt_us
  let ns16 := num_samples % 65536
  let ns_sw := swapBytes16 ns16
  ((((bh.set 16 (dt_sw % 256)).set 17 (dt_sw / 256 % 256)).set
      20 (ns_sw % 256)).set 21 (ns_sw / 256 % 256))

/-- `SegyWriter::writeTraces`: for each trace its 240-byte header
followed by the IBM-encoded, byte-swapped samples. -/
def tracesBytes (data : List (List ℕ)) (trace_headers : List (List ℕ)) :
    List ℕ :=
  (trace_headers.zip data).flatMap fun th =>
    th.1 ++ th.2.flatMap fun s => bytes32LE (swapBytes32 (ieeeToIbm s))

/-- `SegyWriter::writeFile` (headers-supplied overload).  The returned
byte list is the full content written to the target file; a thrown
exception is an `Except.error` carrying the exception message, and no
bytes are produced in that case. -/
def writeFile (ref : SegyWriterRef) (data : List (List ℕ))
    (sample_interval : ℚ) (trace_headers : List (List ℕ)) :
    Except String (List ℕ) :=
  -- num_samples = data[0].size() = (data.headD []).length, inlined
  if data = [] then .error ("Data is empty")
  else if (data.drop 1).any fun t => t.length ≠ (data.headD []).length then
    .error ("All traces must have the same number of samples")
  else if trace_headers.length ≠ data.length then
    .error ("Number of trace headers must match number of traces")
  else if trace_headers.any fun h => h.length ≠ 240 then
    .error ("Each trace header must be exactly 240 bytes")
  else
    .ok (ref.text_header ++
      writeBinaryHeaderBytes ref.binary_header sample_interval
        (data.headD []).length ++
      tracesBytes data trace_headers)

/-! ### Amplification engine (src/amplify/amplify.cpp, namespace amplify)

Data model from amplify.h: `Point` is `(int trace, float time_ms)`;
`SeismicData` and the masks are `std::vector<std::vector<...>>`. -/

/-- `amplify::Point`. -/
structure Point where
  trace : ℤ
  time_ms : ℚ
deriving DecidableEq

/-- A C++ `float` value in the positions where the code can produce
infinities or NaN: a finite (exact) value, `+inf`, `-inf`, or NaN. -/
inductive Flt where
  | fin (x : ℚ)
  | pInf
  | nInf
  | nan
deriving DecidableEq

/-- IEEE `<` on `Flt` (every comparison with NaN is false). -/
def Flt.lt : Flt → Flt → Bool
  | .fin a, .fin b => a < b
  | .fin _, .pInf => true
  | .nInf, .fin _ => true
  | .nInf, .pInf => true
  | _, _ => false

/-- `std::min(a, b)` = `(b < a) ? b : a`. -/
def Flt.minF (a b : Flt) : Flt := if Flt.lt b a then b else a

/-- `std::max(a, b)` = `(a < b) ? b : a`. -/
def Flt.maxF (a b : Flt) : Flt := if Flt.lt a b then b else a

/-- `blend * c` with `blend : Flt` and a finite `c` (IEEE: `±inf * 0`
is NaN, otherwise the sign rules apply). -/
def Flt.mulQ : Flt → ℚ → Flt
  | .fin x, c => .fin (x * c)
  | .pInf, c => if 0 < c then .pInf else if c < 0 then .nInf else .nan
  | .nInf, c => if 0 < c then .nInf else if c < 0 then .pInf else .nan
  | .nan, _ => .nan

/-- `c * a` with a finite `c` on the left. -/
def Flt.mulQF (c : ℚ) : Flt → Flt
  | .fin x => .fin (c * x)
  | .pInf => if 0 < c then .pInf else if c < 0 then .nInf else .nan
  | .nInf => if 0 < c then .nInf else if c < 0 then .pInf else .nan
  | .nan => .nan

/-- `c + a` with a finite `c`. -/
def Flt.addQ (c : ℚ) : Flt → Flt
  | .fin x => .fin (c + x)
  | .pInf => .pInf
  | .nInf => .nInf
  | .nan => .nan

/-- Seismic samples are finite floats, modelled exactly. -/
abbrev SeismicData : Type := List (List ℚ)

/-- `amplify::BooleanMask`. -/
abbrev BooleanMask : Type := List (List Bool)

/-- `amplify::FloatMask` in the positions (blend weights, multipliers)
where infinities and NaN can arise. -/
abbrev FloatMask : Type := List (List Flt)

/-- The working array of `distanceTransformEDT`: `none` is the IEEE
`+inf` the foreground cells are initialised with, `some q` a finite
distance. -/
abbrev DMap : Type := List (List (Option ℚ))

/-- `amplify::TransitionMode`. -/
inductive TransitionMode where
  | OUTSIDE
  | INSIDE
deriving DecidableEq

/-- `amplify::ProcessingMode`. -/
inductive ProcessingMode where
  | SCALE
  | ALIGN
deriving DecidableEq

/-- `amplify::AmplifyResult`. -/
structure AmplifyResult where
  output_data : FloatMask
  multiplier_mask : FloatMask
  window_indices : BooleanMask
deriving DecidableEq

/-- IEEE `<` on the distance domain (`none` = `+inf`; no NaN can occur
inside the distance transform). -/
def oLt : Option ℚ → Option ℚ → Bool
  | none, _ => false
  | some _, none => true
  | some a, some b => a < b

/-- `std::min` on distances. -/
def minD (a b : Option ℚ) : Option ℚ := if oLt b a then b else a

/-- `std::max` on distances. -/
def maxD (a b : Option ℚ) : Option ℚ := if oLt a b then b else a

/-- `d + s` with finite `s` (`inf + s = inf`). -/
def addD (d : Option ℚ) (s : ℚ) : Option ℚ := d.map (· + s)

/-- IEEE division `d / M` of two distances; this is where `inf / inf`
produces NaN.  (`finite / 0` cannot be reached: the caller tests
`max_dist_inside == 0.0f` first; `a / +inf` is `0`.) -/
def divD : Option ℚ → Option ℚ → Flt
  | some a, some b =>
      if b = 0 then (if a = 0 then .nan else if 0 < a then .pInf else .nInf)
      else .fin (a / b)
  | some _, none => .fin 0
  | none, some b => if b < 0 then .nInf else .pInf
  | none, none => .nan

/-- Raster (row-major) traversal order of an `nt × ns` grid: the index
sequence of `for (i = 0; i < nt; ++i) for (j = 0; j < ns; ++j)`. -/
def raster (nt ns : ℕ) : List (ℕ × ℕ) :=
  (List.range nt).flatMap fun i => (List.range ns).map fun j => (i, j)

/-- Initial distance map of `distanceTransformEDT`: background cells
(`mask = false`) start at 0, foreground cells at `+inf`. -/
def edtInit (mask : BooleanMask) : DMap :=
  mask.map fun row => row.map fun b => if b then none else some 0

/-- One cell update of the forward sweep (lines 123–150 of amplify.cpp):
minimum over the already-updated previous-trace, previous-sample and
diagonal neighbours, each plus its sampling step. -/
def edtForwardStep (mask : BooleanMask) (ts ss diag : ℚ) (dm : DMap)
    (p : ℕ × ℕ) : DMap :=
  let i := p.1
  let j := p.2
  if get2 mask i j false then
    let d0 := get2 dm i j (some 0)
    let d1 := if 0 < i then minD d0 (addD (get2 dm (i-1) j (some 0)) ts) else d0
    let d2 := if 0 < j then minD d1 (addD (get2 dm i (j-1) (some 0)) ss) else d1
    let d3 := if 0 < i ∧ 0 < j then
        minD d2 (addD (get2 dm (i-1) (j-1) (some 0)) diag) else d2
    set2 dm i j d3
  else dm

/-- One cell update of the backward sweep (lines 153–180), symmetric
with the "next" neighbours. -/
def edtBackwardStep (mask : BooleanMask) (nt ns : ℕ) (ts ss diag : ℚ)
    (dm : DMap) (p : ℕ × ℕ) : DMap :=
  let i := p.1
  let j := p.2
  if get2 mask i j false then
    let d0 := get2 dm i j (some 0)
    let d1 := if i + 1 < nt then minD d0 (addD (get2 dm (i+1) j (some 0)) ts)
        else d0
    let d2 := if j + 1 < ns then minD d1 (addD (get2 dm i (j+1) (some 0)) ss)
        else d1
    let d3 := if i + 1 < nt ∧ j + 1 < ns then
        minD d2 (addD (get2 dm (i+1) (j+1) (some 0)) diag) else d2
    set2 dm i j d3
  else dm

/-- `amplify::distanceTransformEDT`.  `sq` models `std::sqrt` (used for
the diagonal step length). -/
def distanceTransformEDT (sq : ℚ → ℚ) (binary_mask : BooleanMask)
    (sampling : List ℚ) : DMap :=
  if binary_mask = [] ∨ binary_mask.headD [] = [] then []
  else
    let n_traces := binary_mask.length
    let n_samples := (binary_mask.headD []).length
    let trace_sampling := sampling.getD 0 0
    let time_sampling := sampling.getD 1 0
    let diag := sq (trace_sampling * trace_sampling +
      time_sampling * time_sampling)
    let fwd := (raster n_traces n_samples).foldl
      (edtForwardStep binary_mask trace_sampling time_sampling diag)
      (edtInit binary_mask)
    (raster n_traces n_samples).reverse.foldl
      (edtBackwardStep binary_mask n_traces n_samples trace_sampling
        time_sampling diag) fwd

/-- The hard-edge mask: the boolean window reinterpreted as 1.0/0.0
(used when a transition width is non-positive and in the degenerate
INSIDE fallback). -/
def hardMask (nt ns : ℕ) (window_indices : BooleanMask) : FloatMask :=
  (List.range nt).map fun i => (List.range ns).map fun j =>
    if get2 window_indices i j false then Flt.fin 1 else Flt.fin 0

/-- `amplify::createTransitionMask`. -/
def createTransitionMask (sq : ℚ → ℚ) (seismic_data_shape : ℕ × ℕ)
    (window_indices : BooleanMask) (transition_width_traces : ℤ)
    (transition_width_time_ms dt_ms : ℚ)
    (transition_mode : TransitionMode) : FloatMask :=
  let n_traces := seismic_data_shape.1
  let n_samples := seismic_data_shape.2
  if transition_width_traces ≤ 0 ∨ transition_width_time_ms ≤ 0 then
    hardMask n_traces n_samples window_indices
  else
    let transition_width_samples := transition_width_time_ms / dt_ms
    let sampling : List ℚ :=
      [1 / (transition_width_traces : ℚ), 1 / transition_width_samples]
    match transition_mode with
    | .OUTSIDE =>
        let inverted_mask := window_indices.map fun row => row.map (!·)
        let distances := distanceTransformEDT sq inverted_mask sampling
        (List.range n_traces).map fun i => (List.range n_samples).map fun j =>
          if get2 window_indices i j false then Flt.fin 1
          else
            -- std::max(0.0f, std::min(1.0f, 1.0f - distances[i][j]))
            Flt.maxF (Flt.fin 0) (Flt.minF (Flt.fin 1)
              (match get2 distances i j (some 0) with
                | some x => Flt.fin (1 - x)
                | none => Flt.nInf))
    | .INSIDE =>
        let distances := distanceTransformEDT sq window_indices sampling
        let max_dist_inside := (raster n_traces n_samples).foldl
          (fun acc p =>
            if get2 window_indices p.1 p.2 false then
              maxD acc (get2 distances p.1 p.2 (some 0))
            else acc) (some 0)
        if max_dist_inside = some 0 then
          hardMask n_traces n_samples window_indices
        else
          (List.range n_traces).map fun i =>
            (List.range n_samples).map fun j =>
              if get2 window_indices i j false then
                divD (get2 distances i j (some 0)) max_dist_inside
              else Flt.fin 0

/-- The all-false `nt × ns` mask every `createWindowMask` branch starts
from. -/
def baseMask (nt ns : ℕ) : BooleanMask :=
  List.replicate nt (List.replicate ns false)

/-- The single-point branch of `createWindowMask` (lines 304–316): mark
`(trace, static_cast<int>(time_ms / dt_ms))` if it is within bounds. -/
def pointMask (nt ns : ℕ) (target_window : List Point) (dt_ms : ℚ) :
    BooleanMask :=
  target_window.foldl (fun m p =>
    let s := ratTrunc (p.time_ms / dt_ms)
    if 0 ≤ p.trace ∧ p.trace < (nt : ℤ) ∧ 0 ≤ s ∧ s < (ns : ℤ) then
      set2 m p.trace.toNat s.toNat true
    else m) (baseMask nt ns)

/-- The rectangle branch of `createWindowMask` (lines 281–303): each
axis's min and max indices are independently clamped into bounds, then
the inclusive box is filled. -/
def rectMask (nt ns : ℕ) (p1 p2 : Point) (dt_ms : ℚ) : BooleanMask :=
  let min_trace := min p1.trace p2.trace
  let max_trace := max p1.trace p2.trace
  let min_sample := min (ratTrunc (p1.time_ms / dt_ms))
    (ratTrunc (p2.time_ms / dt_ms))
  let max_sample := max (ratTrunc (p1.time_ms / dt_ms))
    (ratTrunc (p2.time_ms / dt_ms))
  let cmin_trace := max 0 (min ((nt : ℤ) - 1) min_trace)
  let cmax_trace := max 0 (min ((nt : ℤ) - 1) max_trace)
  let cmin_sample := max 0 (min ((ns : ℤ) - 1) min_sample)
  let cmax_sample := max 0 (min ((ns : ℤ) - 1) max_sample)
  ((intRange cmin_trace cmax_trace).flatMap fun t =>
      (intRange cmin_sample cmax_sample).map fun s => (t, s)).foldl
    (fun m p => set2 m p.1.toNat p.2.toNat true) (baseMask nt ns)

/-- Insertion into a sorted list of rationals. -/
def insertQ (x : ℚ) : List ℚ → List ℚ
  | [] => [x]
  | y :: ys => if x ≤ y then x :: y :: ys else y :: insertQ x ys

/-- `std::sort` on the intersection times.  On exact rationals equal
elements are identical, so the sorted result is uniquely determined and
any correct sort computes it. -/
def sortQ : List ℚ → List ℚ
  | [] => []
  | x :: xs => insertQ x (sortQ xs)

/-- Consecutive even–odd pairs `(0,1), (2,3), …` of a list (the fill
loop `for (i = 0; i + 1 < n; i += 2)`); an unpaired last element is
dropped. -/
def pairUp : List ℚ → List (ℚ × ℚ)
  | a :: b :: rest => (a, b) :: pairUp rest
  | _ => []

/-- The polygon branch of `createWindowMask` (lines 318–378): close the
polygon, and for every trace index between the vertex extremes collect
the edge crossings of that vertical line, sort them, and fill the
inclusive, clamped sample ranges between consecutive pairs.  The trace
bound check sits inside the innermost fill loop, as in the C++. -/
def polyMask (nt ns : ℕ) (pts : List Point) (dt_ms : ℚ) : BooleanMask :=
  let first := pts.headD ⟨0, 0⟩
  let min_trace := pts.foldl (fun a p => min a p.trace) first.trace
  let max_trace := pts.foldl (fun a p => max a p.trace) first.trace
  let closed_polygon := pts ++ [first]
  let edges := closed_polygon.zip (closed_polygon.drop 1)
  (intRange min_trace max_trace).foldl (fun m (trace_idx : ℤ) =>
    let intersections := edges.foldr (fun e acc =>
      if e.1.trace ≠ e.2.trace then
        let t := ((trace_idx : ℚ) - (e.1.trace : ℚ)) /
          ((e.2.trace : ℚ) - (e.1.trace : ℚ))
        if 0 ≤ t ∧ t ≤ 1 then
          (e.1.time_ms + t * (e.2.time_ms - e.1.time_ms)) :: acc
        else acc
      else acc) []
    (pairUp (sortQ intersections)).foldl (fun m2 se =>
      let start_sample := max 0 (min ((ns : ℤ) - 1) (ratTrunc (se.1 / dt_ms)))
      let end_sample := max 0 (min ((ns : ℤ) - 1) (ratTrunc (se.2 / dt_ms)))
      (intRange start_sample end_sample).foldl (fun m3 s =>
        if 0 ≤ trace_idx ∧ trace_idx < (nt : ℤ) then
          set2 m3 trace_idx.toNat s.toNat true
        else m3) m2) m) (baseMask nt ns)

/-- `amplify::createWindowMask`, dispatching on the window size exactly
as the if-chain does (empty / rectangle / single point / polygon). -/
def createWindowMask (seismic_data_shape : ℕ × ℕ)
    (target_window : List Point) (dt_ms : ℚ) : BooleanMask :=
  match target_window with
  | [] => baseMask seismic_data_shape.1 seismic_data_shape.2
  | [p] => pointMask seismic_data_shape.1 seismic_data_shape.2 [p] dt_ms
  | [p1, p2] => rectMask seismic_data_shape.1 seismic_data_shape.2 p1 p2 dt_ms
  | pts => polyMask seismic_data_shape.1 seismic_data_shape.2 pts dt_ms

/-- `amplify::calculateRMS`; `sq` models `std::sqrt`.  The sum of
squares is accumulated in `double`, which the exact model subsumes. -/
def calculateRMS (sq : ℚ → ℚ) (data : SeismicData) (mask : BooleanMask) : ℚ :=
  if data = [] ∨ data.headD [] = [] then 0
  else
    let s : ℚ × ℕ := (List.range data.length).foldl (fun acc i =>
      (List.range (data.getD i []).length).foldl (fun acc2 j =>
        if get2 mask i j false then
          (acc2.1 + get2 data i j 0 * get2 data i j 0, acc2.2 + 1)
        else acc2) acc) (0, 0)
    if s.2 = 0 then 0 else sq (s.1 / (s.2 : ℚ))

/-- The target-gain computation of `amplifySeismicWindow`
(lines 488–557): the scale factor in SCALE mode, the RMS ratio against
the dilated-bounding-box surrounding in ALIGN mode. -/
def targetAmplification (sq : ℚ → ℚ) (seismic_data : SeismicData)
    (dt_ms : ℚ) (window_indices : BooleanMask) (mode : ProcessingMode)
    (scale_factor : ℚ) (align_width_traces : ℤ) (align_width_time_ms : ℚ) :
    ℚ :=
  match mode with
  | .SCALE => scale_factor
  | .ALIGN =>
      let n_traces := seismic_data.length
      let n_time_samples := (seismic_data.headD []).length
      let rms_in_window := calculateRMS sq seismic_data window_indices
      let align_width_time_samples := ratTrunc (align_width_time_ms / dt_ms)
      -- AABB of the window, with the sentinels (nt, -1, ns, -1)
      let aabb : ℤ × ℤ × ℤ × ℤ := (raster n_traces n_time_samples).foldl
        (fun a p =>
          if get2 window_indices p.1 p.2 false then
            (min a.1 (p.1 : ℤ), max a.2.1 (p.1 : ℤ),
             min a.2.2.1 (p.2 : ℤ), max a.2.2.2 (p.2 : ℤ))
          else a)
        ((n_traces : ℤ), -1, (n_time_samples : ℤ), -1)
      let expanded_min_trace := max 0 (aabb.1 - align_width_traces)
      let expanded_max_trace := min ((n_traces : ℤ) - 1)
        (aabb.2.1 + align_width_traces)
      let expanded_min_sample := max 0 (aabb.2.2.1 - align_width_time_samples)
      let expanded_max_sample := min ((n_time_samples : ℤ) - 1)
        (aabb.2.2.2 + align_width_time_samples)
      let surrounding_mask := ((intRange expanded_min_trace
          expanded_max_trace).flatMap fun i =>
            (intRange expanded_min_sample expanded_max_sample).map fun j =>
              (i, j)).foldl
        (fun m p =>
          if get2 window_indices p.1.toNat p.2.toNat false = false then
            set2 m p.1.toNat p.2.toNat true
          else m) (baseMask n_traces n_time_samples)
      let has_surrounding := surrounding_mask.any fun row => row.any id
      let rms_surrounding :=
        if has_surrounding then calculateRMS sq seismic_data surrounding_mask
        else rms_in_window
      if 1/1000000000 < rms_in_window then rms_surrounding / rms_in_window
      else 1

/-- The no-op result of `amplifySeismicWindow`: the
constructor-initialised `AmplifyResult` (all-ones multiplier, all-false
window mask) with the `result.output_data = seismic_data` assignment
collapsed in. -/
def noopResult (seismic_data : SeismicData) : AmplifyResult :=
  { output_data := seismic_data.map fun row => row.map Flt.fin
    multiplier_mask := List.replicate seismic_data.length
      (List.replicate (seismic_data.headD []).length (Flt.fin 1))
    window_indices :=
      baseMask seismic_data.length (seismic_data.headD []).length }

/-- The non-no-op result of `amplifySeismicWindow` (lines 482–569):
build the blend mask and the gain, then fill the multiplier mask with
`1 + blend·(gain − 1)` and the output with `input · multiplier`, and
return them together with the window mask. -/
def mainResult (sq : ℚ → ℚ) (seismic_data : SeismicData) (dt_ms : ℚ)
    (target_window : List Point) (mode : ProcessingMode) (scale_factor : ℚ)
    (transition_width_traces : ℤ) (transition_width_time_ms : ℚ)
    (transition_mode : TransitionMode) (align_width_traces : ℤ)
    (align_width_time_ms : ℚ) : AmplifyResult :=
  let n_traces := seismic_data.length
  let n_time_samples := (seismic_data.headD []).length
  let window_indices :=
    createWindowMask (n_traces, n_time_samples) target_window dt_ms
  let blending_mask := createTransitionMask sq (n_traces, n_time_samples)
    window_indices transition_width_traces transition_width_time_ms dt_ms
    transition_mode
  let target_amplification := targetAmplification sq seismic_data dt_ms
    window_indices mode scale_factor align_width_traces align_width_time_ms
  let multiplier_mask := (List.range n_traces).map fun i =>
    (List.range n_time_samples).map fun j =>
      Flt.addQ 1 (Flt.mulQ (get2 blending_mask i j (Flt.fin 0))
        (target_amplification - 1))
  let output_data := (List.range n_traces).map fun i =>
    (List.range n_time_samples).map fun j =>
      Flt.mulQF (get2 seismic_data i j 0)
        (get2 multiplier_mask i j (Flt.fin 0))
  { output_data := output_data
    multiplier_mask := multiplier_mask
    window_indices := window_indices }

/-- `amplify::amplifySeismicWindow`. -/
def amplifySeismicWindow (sq : ℚ → ℚ) (seismic_data : SeismicData)
    (dt_ms : ℚ) (target_window : List Point) (mode : ProcessingMode)
    (scale_factor : ℚ) (transition_width_traces : ℤ)
    (transition_width_time_ms : ℚ) (transition_mode : TransitionMode)
    (align_width_traces : ℤ) (align_width_time_ms : ℚ) :
    Except String AmplifyResult :=
  if seismic_data = [] ∨ seismic_data.headD [] = [] then
    .error ("Seismic data is empty")
  else if target_window = [] then .ok (noopResult seismic_data)
  else if ((createWindowMask (seismic_data.length,
      (seismic_data.headD []).length) target_window dt_ms).any fun row =>
        row.any id) = false then
    .ok (noopResult seismic_data)
  else
    .ok (mainResult sq seismic_data dt_ms target_window mode scale_factor
      transition_width_traces transition_width_time_ms transition_mode
      align_width_traces align_width_time_ms)

/-! ### Helper lemmas about masks and grids -/

lemma getD_replicate {α : Type} :
    ∀ (n i : ℕ) (a d : α), (List.replicate n a).getD i d = if i < n then a else d := by
  intro n
  induction n with
  | zero => intro i a d; simp
  | succ k ih =>
      intro i a d
      cases i with
      | zero => simp [List.replicate_succ]
      | succ m => simpa [List.replicate_succ] using ih m a d

lemma get2_baseMask (nt ns i j : ℕ) : get2 (baseMask nt ns) i j false = false := by
  rw [get2, baseMask, getD_replicate]
  split_ifs with h
  · rw [getD_replicate]
    split_ifs <;> rfl
  · rfl

lemma isGrid_baseMask (nt ns : ℕ) : IsGrid (baseMask nt ns) nt ns := by
  refine ⟨by simp [baseMask], ?_⟩
  intro row hrow
  rw [List.eq_of_mem_replicate hrow, List.length_replicate]

lemma isGrid_row_length {α : Type} {m : List (List α)} {nt ns : ℕ}
    (hg : IsGrid m nt ns) (i : ℕ) (hi : i < nt) :
    (m.getD i []).length = ns :=
  hg.2 _ (getD_mem_of_lt m i [] (by rw [hg.1]; exact hi))

lemma getD_range_map {α : Type} (f : ℕ → α) (n i : ℕ) (d : α) (h : i < n) :
    ((List.range n).map f).getD i d = f i := by
  rw [List.getD_eq_getElem?_getD ((List.range n).map f) i d, List.getElem?_map,
    List.getElem?_range h]
  rfl

lemma get2_rangeMap {α : Type} (f : ℕ → ℕ → α) (nt ns i j : ℕ) (d : α)
    (hi : i < nt) (hj : j < ns) :
    get2 ((List.range nt).map fun a => (List.range ns).map fun b => f a b)
      i j d = f i j := by
  rw [get2, getD_range_map _ _ _ _ hi, getD_range_map _ _ _ _ hj]

lemma isGrid_rangeMap {α : Type} (f : ℕ → ℕ → α) (nt ns : ℕ) :
    IsGrid ((List.range nt).map fun a => (List.range ns).map fun b => f a b)
      nt ns := by
  refine ⟨by simp, ?_⟩
  intro row hrow
  obtain ⟨a, _, rfl⟩ := List.mem_map.mp hrow
  simp

/-- Cells already set to `true` survive a fold of `set2 … true` writes,
and any in-range write in the list establishes them. -/
lemma foldl_set2_true_mem (nt ns i j : ℕ) :
    ∀ (l : List (ℤ × ℤ)) (m : BooleanMask), IsGrid m nt ns → i < nt → j < ns →
    ((∃ p ∈ l, p.1.toNat = i ∧ p.2.toNat = j) ∨ get2 m i j false = true) →
    get2 (l.foldl (fun acc p => set2 acc p.1.toNat p.2.toNat true) m) i j false
      = true := by
  intro l
  induction l with
  | nil =>
      intro m _ _ _ h
      rcases h with ⟨p, hp, _⟩ | h
      · exact absurd hp (List.not_mem_nil p)
      · exact h
  | cons q l ih =>
      intro m hg hi hj h
      rw [List.foldl_cons]
      apply ih _ (isGrid_set2 _ _ _ hg) hi hj
      by_cases hq : q.1.toNat = i ∧ q.2.toNat = j
      · right
        obtain ⟨h1, h2⟩ := hq
        rw [← h1, ← h2]
        exact get2_set2_eq m _ _ true false (by rw [hg.1, h1]; exact hi)
          (by rw [isGrid_row_length hg _ (by rw [h1]; exact hi), h2]; exact hj)
      · rcases h with ⟨p, hp, hpe⟩ | h
        · rcases List.mem_cons.mp hp with rfl | hp2
          · exact absurd hpe hq
          · exact Or.inl ⟨p, hp2, hpe⟩
        · right
          rw [get2_set2_ne _ _ _ _ _ _ _ (by tauto)]
          exact h

/-- Cell-level characterisation of the single-point branch of
`createWindowMask`: the cell `(trace, trunc(time/dt))` is marked iff it
is in bounds, and nothing else is. -/
lemma get2_pointMask (nt ns : ℕ) (p : Point) (dt : ℚ) (i j : ℕ)
    (hi : i < nt) (hj : j < ns) :
    (get2 (pointMask nt ns [p] dt) i j false = true ↔
      ((i : ℤ) = p.trace ∧ (j : ℤ) = ratTrunc (p.time_ms / dt))) := by
  rw [pointMask]
  simp only [List.foldl_cons, List.foldl_nil]
  by_cases hc : 0 ≤ p.trace ∧ p.trace < (nt : ℤ) ∧
      0 ≤ ratTrunc (p.time_ms / dt) ∧ ratTrunc (p.time_ms / dt) < (ns : ℤ)
  · rw [if_pos hc]
    obtain ⟨hc1, hc2, hc3, hc4⟩ := hc
    by_cases hij : i = p.trace.toNat ∧ j = (ratTrunc (p.time_ms / dt)).toNat
    · obtain ⟨rfl, rfl⟩ := hij
      rw [get2_set2_eq _ _ _ _ _ (by rw [(isGrid_baseMask nt ns).1]; omega)
        (by rw [isGrid_row_length (isGrid_baseMask nt ns) _ (by omega)]; omega)]
      constructor
      · intro _
        constructor <;> omega
      · intro _
        rfl
    · rw [get2_set2_ne _ _ _ _ _ _ _ (not_and_or.mp hij), get2_baseMask]
      constructor
      · intro h
        exact absurd h (by decide)
      · intro hr
        obtain ⟨h1, h2⟩ := hr
        exact absurd ⟨by omega, by omega⟩ hij
  · rw [if_neg hc, get2_baseMask]
    constructor
    · intro h
      exact absurd h (by decide)
    · intro hr
      obtain ⟨h1, h2⟩ := hr
      exact absurd ⟨by omega, by omega, by omega, by omega⟩ hc

/-- A mask with a true cell has `mask.any (·.any id) = true` (the
`has_window` test of `amplifySeismicWindow`). -/
lemma any_of_get2 {m : BooleanMask} (i j : ℕ)
    (h : get2 m i j false = true) : (m.any fun row => row.any id) = true := by
  rw [get2] at h
  by_cases hi : i < m.length
  · rw [List.any_eq_true]
    refine ⟨m.getD i [], getD_mem_of_lt m i [] hi, ?_⟩
    rw [List.getD_eq_getElem?_getD (m.getD i []) j false] at h
    rw [List.any_eq_true]
    cases he : (m.getD i [])[j]? with
    | none => rw [he] at h; exact absurd h (by decide)
    | some b =>
        rw [he] at h
        exact ⟨b, List.getElem?_mem he, by simpa using h⟩
  · have he : m[i]? = none := List.getElem?_eq_none (by omega)
    rw [List.getD_eq_getElem?_getD m i [], he] at h
    simp at h

/-- Every `createWindowMask` branch (empty, point, rectangle, polygon)
only writes cells of the all-false `nt × ns` base mask, so the result is
always an `nt × ns` grid. -/
lemma isGrid_createWindowMask (nt ns : ℕ) (tw : List Point) (dt : ℚ) :
    IsGrid (createWindowMask (nt, ns) tw dt) nt ns := by
  rcases tw with _ | ⟨p, _ | ⟨q, _ | ⟨r, rest⟩⟩⟩
  · exact isGrid_baseMask nt ns
  · show IsGrid (pointMask nt ns [p] dt) nt ns
    rw [pointMask]
    apply foldl_preserve (fun m => IsGrid m nt ns) _ ?_ _ _
      (isGrid_baseMask nt ns)
    intro b a hb
    dsimp only
    split_ifs
    · exact isGrid_set2 _ _ _ hb
    · exact hb
  · show IsGrid (rectMask nt ns p q dt) nt ns
    rw [rectMask]
    exact foldl_preserve (fun m => IsGrid m nt ns) _
      (fun b a hb => isGrid_set2 _ _ _ hb) _ _ (isGrid_baseMask nt ns)
  · show IsGrid (polyMask nt ns (p :: q :: r :: rest) dt) nt ns
    rw [polyMask]
    apply foldl_preserve (fun m => IsGrid m nt ns) _ ?_ _ _
      (isGrid_baseMask nt ns)
    intro m t hm
    apply foldl_preserve (fun m2 => IsGrid m2 nt ns) _ ?_ _ _ hm
    intro m2 se hm2
    apply foldl_preserve (fun m3 => IsGrid m3 nt ns) _ ?_ _ _ hm2
    intro m3 s hm3
    split_ifs
    · exact isGrid_set2 _ _ _ hm3
    · exact hm3

lemma isGrid_edtForwardStep (mask : BooleanMask) (ts ss diag : ℚ)
    (nt ns : ℕ) (dm : DMap) (p : ℕ × ℕ) (h : IsGrid dm nt ns) :
    IsGrid (edtForwardStep mask ts ss diag dm p) nt ns := by
  rw [edtForwardStep]
  split_ifs <;> first
    | exact isGrid_set2 _ _ _ h
    | exact h

lemma isGrid_edtBackwardStep (mask : BooleanMask) (bnt bns : ℕ)
    (ts ss diag : ℚ) (nt ns : ℕ) (dm : DMap) (p : ℕ × ℕ)
    (h : IsGrid dm nt ns) :
    IsGrid (edtBackwardStep mask bnt bns ts ss diag dm p) nt ns := by
  rw [edtBackwardStep]
  split_ifs <;> first
    | exact isGrid_set2 _ _ _ h
    | exact h

/-- The distance transform of a non-degenerate `nt × ns` grid mask is an
`nt × ns` grid: the initial map copies the mask's shape and the two
sweeps only overwrite cells in place. -/
lemma isGrid_distanceTransformEDT (sq : ℚ → ℚ) (mask : BooleanMask)
    (sampling : List ℚ) (nt ns : ℕ) (hg : IsGrid mask nt ns)
    (hnt : 0 < nt) (hns : 0 < ns) :
    IsGrid (distanceTransformEDT sq mask sampling) nt ns := by
  have hne : ¬(mask = [] ∨ mask.headD [] = []) := by
    push_neg
    constructor
    · intro h
      rw [h] at hg
      have h1 := hg.1
      simp at h1
      omega
    · intro h
      have hmem : mask.headD [] ∈ mask := by
        cases mask with
        | nil =>
            exfalso
            have h1 := hg.1
            simp at h1
            omega
        | cons r t => exact List.mem_cons_self r t
      have h2 := hg.2 _ hmem
      rw [h] at h2
      simp at h2
      omega
  rw [distanceTransformEDT, if_neg hne]
  have hinit : IsGrid (edtInit mask) nt ns := by
    constructor
    · simp [edtInit, hg.1]
    · intro row hrow
      obtain ⟨r, hr, rfl⟩ := List.mem_map.mp hrow
      simp [hg.2 r hr]
  exact foldl_preserve (fun m => IsGrid m nt ns) _
    (fun b a hb => isGrid_edtBackwardStep _ _ _ _ _ _ _ _ _ _ hb) _ _
    (foldl_preserve (fun m => IsGrid m nt ns) _
      (fun b a hb => isGrid_edtForwardStep _ _ _ _ _ _ _ _ hb) _ _ hinit)

lemma isGrid_hardMask (nt ns : ℕ) (wi : BooleanMask) :
    IsGrid (hardMask nt ns wi) nt ns := by
  rw [hardMask]
  exact isGrid_rangeMap _ _ _

/-- Every branch of `createTransitionMask` fills a fresh `nt × ns`
array, so its output is always an `nt × ns` grid. -/
lemma isGrid_createTransitionMask (sq : ℚ → ℚ) (nt ns : ℕ)
    (wi : BooleanMask) (twt : ℤ) (twms dt : ℚ) (tmode : TransitionMode) :
    IsGrid (createTransitionMask sq (nt, ns) wi twt twms dt tmode) nt ns := by
  rw [createTransitionMask]
  split_ifs with h1
  · exact isGrid_hardMask nt ns wi
  · cases tmode with
    | OUTSIDE => exact isGrid_rangeMap _ _ _
    | INSIDE =>
        dsimp only
        split_ifs with h2
        · exact isGrid_hardMask nt ns wi
        · exact isGrid_rangeMap _ _ _

/-- The `multiplier_mask` of the main path of `amplifySeismicWindow` is
the nt × ns array of `1 + blend·(gain − 1)` values (definitional). -/
lemma mainResult_multiplier_mask (sq : ℚ → ℚ) (data : SeismicData)
    (dt sf twms awms : ℚ) (tw : List Point) (mode : ProcessingMode)
    (twt awt : ℤ) (tmode : TransitionMode) :
    (mainResult sq data dt tw mode sf twt twms tmode awt
        awms).multiplier_mask =
      (List.range data.length).map fun a =>
        (List.range (data.headD []).length).map fun b =>
          Flt.addQ 1 (Flt.mulQ
            (get2 (createTransitionMask sq
                (data.length, (data.headD []).length)
                (createWindowMask (data.length, (data.headD []).length) tw dt)
                twt twms dt tmode) a b (Flt.fin 0))
            (targetAmplification sq data dt
              (createWindowMask (data.length, (data.headD []).length) tw dt)
              mode sf awt awms - 1)) := rfl

/-- The `output_data` of the main path is the cell-wise product of the
input data with the just-built multiplier mask (definitional). -/
lemma mainResult_output_data (sq : ℚ → ℚ) (data : SeismicData)
    (dt sf twms awms : ℚ) (tw : List Point) (mode : ProcessingMode)
    (twt awt : ℤ) (tmode : TransitionMode) :
    (mainResult sq data dt tw mode sf twt twms tmode awt awms).output_data =
      (List.range data.length).map fun a =>
        (List.range (data.headD []).length).map fun b =>
          Flt.mulQF (get2 data a b 0)
            (get2 (mainResult sq data dt tw mode sf twt twms tmode awt
              awms).multiplier_mask a b (Flt.fin 0)) := rfl

/-! ### Theorems about the SEG-Y writer -/

lemma any_length_ne_iff (l : List (List ℕ)) (n : ℕ) :
    (l.any fun t => t.length ≠ n) = true ↔ ∃ t ∈ l, t.length ≠ n := by
  simp [List.any_eq_true]

lemma swapBytes16_lo (v : ℕ) (h : v < 65536) :
    swapBytes16 v % 256 = v / 256 := by
  have h1 : v % 65536 = v := Nat.mod_eq_of_lt h
  rw [swapBytes16, h1]
  omega

lemma swapBytes16_hi (v : ℕ) (h : v < 65536) :
    swapBytes16 v / 256 % 256 = v % 256 := by
  have h1 : v % 65536 = v := Nat.mod_eq_of_lt h
  rw [swapBytes16, h1]
  have h2 : v % 256 * 256 + v / 256 = 256 * (v % 256) + v / 256 := by ring
  have h3 : v / 256 < 256 := by omega
  rw [h2, Nat.mul_add_div (by norm_num), Nat.div_eq_of_lt h3, Nat.add_zero,
    Nat.mod_eq_of_lt (by omega)]

/-- Claim C10: calling the writer's `writeFile` with a volume containing
zero traces fails with the "Data is empty" error, before any trace
header validation runs (the error is reported whatever the supplied
headers are) and before any byte is produced for the target file. -/
theorem c10_writerEmptyData (ref : SegyWriterRef) (si : ℚ)
    (hdrs : List (List ℕ)) :
    writeFile ref [] si hdrs = .error ("Data is empty") := rfl

/-- Claim C5: for a non-empty volume, `writeFile` fails with the
inconsistent-trace-length error iff some trace's sample count differs
from trace 0's; otherwise it fails with the header-count-mismatch error
iff the number of trace headers differs from the number of traces;
otherwise it fails with the malformed-header error iff some trace header
is not exactly 240 bytes.  (In this model the returned byte list is the
entire file content, so an error return writes no bytes.) -/
theorem c5_writerValidation (ref : SegyWriterRef) (data : List (List ℕ))
    (si : ℚ) (hdrs : List (List ℕ)) (hd : data ≠ []) :
    (writeFile ref data si hdrs =
        .error ("All traces must have the same number of samples") ↔
      ∃ t ∈ data, t.length ≠ (data.headD []).length) ∧
    ((∀ t ∈ data, t.length = (data.headD []).length) →
      (writeFile ref data si hdrs =
          .error ("Number of trace headers must match number of traces") ↔
        hdrs.length ≠ data.length)) ∧
    ((∀ t ∈ data, t.length = (data.headD []).length) →
      hdrs.length = data.length →
      (writeFile ref data si hdrs =
          .error ("Each trace header must be exactly 240 bytes") ↔
        ∃ h ∈ hdrs, h.length ≠ 240)) := by
  obtain ⟨d, rest, rfl⟩ : ∃ d rest, data = d :: rest := by
    cases data with
    | nil => exact absurd rfl hd
    | cons d r => exact ⟨d, r, rfl⟩
  rw [writeFile, if_neg (by simp)]
  have hhd : ((d :: rest).headD []).length = d.length := rfl
  have hdrop : (d :: rest).drop 1 = rest := rfl
  rw [hhd, hdrop]
  have hmem : (∃ t ∈ d :: rest, t.length ≠ d.length) ↔
      (∃ t ∈ rest, t.length ≠ d.length) := by
    constructor
    · rintro ⟨t, ht, hne⟩
      rcases List.mem_cons.mp ht with rfl | ht
      · exact absurd rfl hne
      · exact ⟨t, ht, hne⟩
    · rintro ⟨t, ht, hne⟩
      exact ⟨t, List.mem_cons_of_mem _ ht, hne⟩
  split_ifs with h1 h2 h3
  · -- inconsistent trace length
    rw [any_length_ne_iff] at h1
    refine ⟨⟨fun _ => hmem.mpr h1, fun _ => rfl⟩, ?_, ?_⟩
    · intro hall
      obtain ⟨t, ht, hne⟩ := h1
      exact absurd (hall t (List.mem_cons_of_mem _ ht)) hne
    · intro hall _
      obtain ⟨t, ht, hne⟩ := h1
      exact absurd (hall t (List.mem_cons_of_mem _ ht)) hne
  · -- header count mismatch
    rw [any_length_ne_iff] at h1
    refine ⟨⟨fun h => absurd h (by simp), fun h => absurd (hmem.mp h) h1⟩,
      fun _ => ⟨fun _ => h2, fun _ => rfl⟩, fun _ hcnt => absurd hcnt h2⟩
  · -- malformed header
    rw [any_length_ne_iff] at h1
    rw [any_length_ne_iff] at h3
    refine ⟨⟨fun h => absurd h (by simp), fun h => absurd (hmem.mp h) h1⟩,
      fun _ => ⟨fun h => absurd h (by simp), fun h => absurd h h2⟩,
      fun _ _ => ⟨fun _ => h3, fun _ => rfl⟩⟩
  · -- success
    rw [any_length_ne_iff] at h1
    rw [any_length_ne_iff] at h3
    refine ⟨⟨fun h => absurd h (by simp), fun h => absurd (hmem.mp h) h1⟩,
      fun _ => ⟨fun h => absurd h (by simp), fun h => absurd h h2⟩,
      fun _ _ => ⟨fun h => absurd h (by simp), fun h => absurd h h3⟩⟩

theorem c5_witness :
    (([[0], [0]] : List (List ℕ)) ≠ []) ∧
    ((writeFile ⟨List.replicate 3200 0, List.replicate 400 0⟩ [[0], [0]]
          (1/500) [List.replicate 240 0, List.replicate 240 0] =
        .error ("All traces must have the same number of samples") ↔
      ∃ t ∈ ([[0], [0]] : List (List ℕ)),
        t.length ≠ (([[0], [0]] : List (List ℕ)).headD []).length) ∧
    ((∀ t ∈ ([[0], [0]] : List (List ℕ)),
        t.length = (([[0], [0]] : List (List ℕ)).headD []).length) →
      (writeFile ⟨List.replicate 3200 0, List.replicate 400 0⟩ [[0], [0]]
          (1/500) [List.replicate 240 0, List.replicate 240 0] =
          .error ("Number of trace headers must match number of traces") ↔
        ([List.replicate 240 0, List.replicate 240 0] : List (List ℕ)).length ≠
          ([[0], [0]] : List (List ℕ)).length)) ∧
    ((∀ t ∈ ([[0], [0]] : List (List ℕ)),
        t.length = (([[0], [0]] : List (List ℕ)).headD []).length) →
      ([List.replicate 240 0, List.replicate 240 0] : List (List ℕ)).length =
        ([[0], [0]] : List (List ℕ)).length →
      (writeFile ⟨List.replicate 3200 0, List.replicate 400 0⟩ [[0], [0]]
          (1/500) [List.replicate 240 0, List.replicate 240 0] =
          .error ("Each trace header must be exactly 240 bytes") ↔
        ∃ h ∈ ([List.replicate 240 0, List.replicate 240 0] : List (List ℕ)),
          h.length ≠ 240))) :=
  ⟨by decide,
   c5_writerValidation ⟨List.replicate 3200 0, List.replicate 400 0⟩
     [[0], [0]] (1/500) [List.replicate 240 0, List.replicate 240 0]
     (by decide)⟩

/-- Claim C6: on every successful write the 3200-byte text header is
emitted byte-for-byte equal to the reference text header, and the
emitted 400-byte binary header equals the reference binary header in
every byte except 16–17 (sample interval in microseconds, big-endian
16-bit) and 20–21 (samples per trace, big-endian 16-bit). -/
theorem c6_writerHeaderBytes (ref : SegyWriterRef) (data : List (List ℕ))
    (si : ℚ) (hdrs : List (List ℕ))
    (htext : ref.text_header.length = 3200)
    (hbin : ref.binary_header.length = 400)
    (hd : data ≠ [])
    (hlen : ∀ t ∈ data, t.length = (data.headD []).length)
    (hcnt : hdrs.length = data.length)
    (h240 : ∀ h ∈ hdrs, h.length = 240) :
    writeFile ref data si hdrs = .ok (ref.text_header ++
        writeBinaryHeaderBytes ref.binary_header si (data.headD []).length ++
        tracesBytes data hdrs) ∧
    (ref.text_header ++
        writeBinaryHeaderBytes ref.binary_header si (data.headD []).length ++
        tracesBytes data hdrs).take 3200 = ref.text_header ∧
    ((ref.text_header ++
        writeBinaryHeaderBytes ref.binary_header si (data.headD []).length ++
        tracesBytes data hdrs).drop 3200).take 400 =
      writeBinaryHeaderBytes ref.binary_header si (data.headD []).length ∧
    (∀ k, k < 400 → k ≠ 16 → k ≠ 17 → k ≠ 20 → k ≠ 21 →
      (writeBinaryHeaderBytes ref.binary_header si
          (data.headD []).length).getD k 0 = ref.binary_header.getD k 0) ∧
    (writeBinaryHeaderBytes ref.binary_header si
        (data.headD []).length).getD 16 0 =
      (ratTrunc (si * 1000000)).toNat % 65536 / 256 ∧
    (writeBinaryHeaderBytes ref.binary_header si
        (data.headD []).length).getD 17 0 =
      (ratTrunc (si * 1000000)).toNat % 65536 % 256 ∧
    (writeBinaryHeaderBytes ref.binary_header si
        (data.headD []).length).getD 20 0 =
      (data.headD []).length % 65536 / 256 ∧
    (writeBinaryHeaderBytes ref.binary_header si
        (data.headD []).length).getD 21 0 =
      (data.headD []).length % 65536 % 256 := by
  have hblen : (writeBinaryHeaderBytes ref.binary_header si
      (data.headD []).length).length = 400 := by
    simp [writeBinaryHeaderBytes, hbin]
  have hdtlt : (ratTrunc (si * 1000000)).toNat % 65536 < 65536 :=
    Nat.mod_lt _ (by omega)
  have hnslt : (data.headD []).length % 65536 < 65536 := Nat.mod_lt _ (by omega)
  have hc1 : ¬ ((data.drop 1).any fun t =>
      t.length ≠ (data.headD []).length) = true := by
    rw [any_length_ne_iff]
    push_neg
    intro t ht
    exact hlen t (List.mem_of_mem_drop ht)
  have hc3 : ¬ (hdrs.any fun h => h.length ≠ 240) = true := by
    rw [any_length_ne_iff]
    push_neg
    exact h240
  refine ⟨?_, ?_, ?_, ?_, ?_, ?_, ?_, ?_⟩
  · rw [writeFile, if_neg hd, if_neg hc1, if_neg (by omega), if_neg hc3]
  · rw [List.append_assoc, List.take_left' htext]
  · rw [List.append_assoc, List.drop_left' htext, List.take_left' hblen]
  · intro k hk h16 h17 h20 h21
    rw [writeBinaryHeaderBytes]
    rw [getD_set_ne _ 21 k _ _ h21, getD_set_ne _ 20 k _ _ h20,
      getD_set_ne _ 17 k _ _ h17, getD_set_ne _ 16 k _ _ h16]
  · rw [writeBinaryHeaderBytes]
    rw [getD_set_ne _ 21 16 _ _ (by omega), getD_set_ne _ 20 16 _ _ (by omega),
      getD_set_ne _ 17 16 _ _ (by omega),
      getD_set_self _ 16 _ _ (by simp [hbin])]
    exact swapBytes16_lo _ hdtlt
  · rw [writeBinaryHeaderBytes]
    rw [getD_set_ne _ 21 17 _ _ (by omega), getD_set_ne _ 20 17 _ _ (by omega),
      getD_set_self _ 17 _ _ (by simp [hbin])]
    exact swapBytes16_hi _ hdtlt
  · rw [writeBinaryHeaderBytes]
    rw [getD_set_ne _ 21 20 _ _ (by omega),
      getD_set_self _ 20 _ _ (by simp [hbin])]
    exact swapBytes16_lo _ hnslt
  · rw [writeBinaryHeaderBytes]
    rw [getD_set_self _ 21 _ _ (by simp [hbin])]
    exact swapBytes16_hi _ hnslt

set_option maxRecDepth 100000 in
theorem c6_witness :
    ((List.replicate 3200 (0 : ℕ)).length = 3200) ∧
    ((List.replicate 400 (5 : ℕ)).length = 400) ∧
    (([[0]] : List (List ℕ)) ≠ []) ∧
    (∀ t ∈ ([[0]] : List (List ℕ)),
      t.length = (([[0]] : List (List ℕ)).headD []).length) ∧
    (([List.replicate 240 0] : List (List ℕ)).length =
      ([[0]] : List (List ℕ)).length) ∧
    (∀ h ∈ ([List.replicate 240 0] : List (List ℕ)), h.length = 240) ∧
    ((writeBinaryHeaderBytes (List.replicate 400 5) (1/1000)
        (([[0]] : List (List ℕ)).headD []).length).getD 16 0 =
      (ratTrunc ((1/1000 : ℚ) * 1000000)).toNat % 65536 / 256) :=
  ⟨by rw [List.length_replicate], by rw [List.length_replicate], by decide,
   by decide, by decide, by decide,
   (c6_writerHeaderBytes ⟨List.replicate 3200 0, List.replicate 400 5⟩
      [[0]] (1/1000) [List.replicate 240 0] (by rw [List.length_replicate])
      (by rw [List.length_replicate]) (by decide)
      (by decide) (by decide) (by decide)).2.2.2.2.1⟩

/-- Claim C7: `ieeeToIbm` maps every bit pattern that is zero after
masking off the sign bit (that is, `+0.0` and `-0.0`) to the IBM
encoding 0, and every other 32-bit input to the value assembled from
the fixed correction tables `it`/`mt` keyed by the two high mantissa
bits. -/
theorem c7_ieeeToIbm (n : ℕ) (h : n < 4294967296) :
    ieeeToIbm n =
      if n &&& 0x7fffffff = 0 then 0
      else ((mtTable.getD ((n &&& 0x01800000) >>> 23) 0 *
              (n &&& 0x007fffff)) >>> 3 +
            (((n &&& 0x7e000000) >>> 1) +
              itTable.getD ((n &&& 0x01800000) >>> 23) 0)) |||
           (n &&& 0x80000000) := by
  by_cases h0 : n = 0
  · subst h0
    simp [ieeeToIbm]
  · rw [ieeeToIbm, if_neg h0]
    by_cases h1 : n &&& 0x7fffffff = 0
    · simp [h1]
    · simp [h1]

theorem c7_witness :
    ((0x3f800000 : ℕ) < 4294967296) ∧ ieeeToIbm 0x3f800000 = 0x41100000 :=
  ⟨by decide, by rw [c7_ieeeToIbm 0x3f800000 (by decide)]; decide⟩

/-! ### Theorems about the amplification engine -/

/-- Claim C4 counterexample: the code truncates `time_ms / dt` toward
zero (`static_cast<int>`), it does not round to the nearest cell.  For a
1×4 grid, dt = 1 ms, single point (0, 2.7 ms), the claimed cell
`(0, round(2.7)) = (0, 3)` is NOT marked; the marked cell is `(0, 2)`. -/
theorem c4_counterexample :
    roundQ ((27 : ℚ) / 10 / 1) = 3 ∧
    get2 (createWindowMask (1, 4) [⟨0, 27/10⟩] 1) 0 3 false = false ∧
    get2 (createWindowMask (1, 4) [⟨0, 27/10⟩] 1) 0 2 false = true := by
  have htr : ratTrunc ((27 : ℚ) / 10 / 1) = 2 := by
    rw [ratTrunc, if_pos (by norm_num)]
    norm_num
  refine ⟨?_, ?_, ?_⟩
  · rw [roundQ]
    norm_num
  · have hch := get2_pointMask 1 4 ⟨0, 27/10⟩ 1 0 3 (by norm_num) (by norm_num)
    rcases hb : get2 (createWindowMask (1, 4) [⟨0, 27/10⟩] 1) 0 3 false with _ | _
    · rfl
    · exfalso
      rw [show createWindowMask (1, 4) [(⟨0, 27/10⟩ : Point)] 1 =
          pointMask 1 4 [⟨0, 27/10⟩] 1 from rfl] at hb
      have := hch.mp hb
      rw [htr] at this
      omega
  · exact (get2_pointMask 1 4 ⟨0, 27/10⟩ 1 0 2 (by norm_num)
      (by norm_num)).mpr ⟨rfl, by rw [htr]; norm_num⟩

/-- Claim C4 (amended): for a single-point window, `createWindowMask`
marks exactly the cell `(trace, trunc(time_ms/dt))` — truncation toward
zero, as by the C++ `static_cast<int>`, not rounding — when that cell is
within bounds, and marks no cell at all otherwise. -/
theorem c4_pointWindow (nt ns : ℕ) (p : Point) (dt : ℚ) (i j : ℕ)
    (hdt : 0 < dt) (hi : i < nt) (hj : j < ns) :
    (get2 (createWindowMask (nt, ns) [p] dt) i j false = true ↔
      ((i : ℤ) = p.trace ∧ (j : ℤ) = ratTrunc (p.time_ms / dt))) :=
  get2_pointMask nt ns p dt i j hi hj

theorem c4_witness :
    ((0 : ℚ) < 1) ∧ ((1 : ℕ) < 2) ∧ ((2 : ℕ) < 3) ∧
    (get2 (createWindowMask (2, 3) [⟨1, 2⟩] 1) 1 2 false = true ↔
      (((1 : ℕ) : ℤ) = (1 : ℤ) ∧ ((2 : ℕ) : ℤ) = ratTrunc ((2 : ℚ) / 1))) :=
  ⟨by norm_num, by norm_num, by norm_num,
   c4_pointWindow 2 3 ⟨1, 2⟩ 1 1 2 (by norm_num) (by norm_num) (by norm_num)⟩

/-- Claim C9: for every two-point (rectangle) window on a non-empty
grid, the mask returned by `createWindowMask` contains at least one true
cell — even when the rectangle lies entirely outside the grid — because
each axis's min and max indices are independently clamped into
`[0, dim−1]` before filling, so the fill loops always run at least once.
The marked witness cell is the clamped `(min_trace, min_sample)`. -/
theorem c9_rectWindowNonempty (nt ns : ℕ) (p1 p2 : Point) (dt : ℚ)
    (hnt : 0 < nt) (hns : 0 < ns) (hdt : 0 < dt) :
    ∃ i j, i < nt ∧ j < ns ∧
      get2 (createWindowMask (nt, ns) [p1, p2] dt) i j false = true := by
  show ∃ i j, i < nt ∧ j < ns ∧
      get2 (rectMask nt ns p1 p2 dt) i j false = true
  rw [rectMask]
  refine ⟨(max 0 (min ((nt : ℤ) - 1) (min p1.trace p2.trace))).toNat,
    (max 0 (min ((ns : ℤ) - 1) (min (ratTrunc (p1.time_ms / dt))
      (ratTrunc (p2.time_ms / dt))))).toNat, by omega, by omega, ?_⟩
  apply foldl_set2_true_mem nt ns _ _ _ _ (isGrid_baseMask nt ns)
    (by omega) (by omega)
  left
  refine ⟨(max 0 (min ((nt : ℤ) - 1) (min p1.trace p2.trace)),
    max 0 (min ((ns : ℤ) - 1) (min (ratTrunc (p1.time_ms / dt))
      (ratTrunc (p2.time_ms / dt))))), ?_, rfl, rfl⟩
  apply List.mem_flatMap.mpr
  refine ⟨max 0 (min ((nt : ℤ) - 1) (min p1.trace p2.trace)),
    mem_intRange.mpr ⟨le_refl _, by omega⟩, ?_⟩
  apply List.mem_map.mpr
  exact ⟨max 0 (min ((ns : ℤ) - 1) (min (ratTrunc (p1.time_ms / dt))
    (ratTrunc (p2.time_ms / dt)))), mem_intRange.mpr ⟨le_refl _, by omega⟩, rfl⟩

theorem c9_witness :
    (0 < 1) ∧ (0 < 1) ∧ ((0 : ℚ) < 1) ∧
    (∃ i j, i < 1 ∧ j < 1 ∧
      get2 (createWindowMask (1, 1) [⟨-5, -10⟩, ⟨-9, -20⟩] 1) i j false
        = true) :=
  ⟨by norm_num, by norm_num, by norm_num,
   c9_rectWindowNonempty 1 1 ⟨-5, -10⟩ ⟨-9, -20⟩ 1 (by norm_num) (by norm_num)
     (by norm_num)⟩

/-- Claim C8: `createWindowMask`, `distanceTransformEDT` and
`createTransitionMask` return masks with exactly the dimensions of the
shape or mask they were computed from (for the distance transform this
requires a non-degenerate rectangular input mask; on an empty mask the
code short-circuits to an empty map). -/
theorem c8_shapeInvariants (sq : ℚ → ℚ) (nt ns : ℕ) (tw : List Point)
    (dt : ℚ) (mask wi : BooleanMask) (sampling : List ℚ) (twt : ℤ)
    (twms dtm : ℚ) (tmode : TransitionMode) :
    IsGrid (createWindowMask (nt, ns) tw dt) nt ns ∧
    (IsGrid mask nt ns → 0 < nt → 0 < ns →
      IsGrid (distanceTransformEDT sq mask sampling) nt ns) ∧
    IsGrid (createTransitionMask sq (nt, ns) wi twt twms dtm tmode) nt ns :=
  ⟨isGrid_createWindowMask nt ns tw dt,
   fun hg h1 h2 => isGrid_distanceTransformEDT sq mask sampling nt ns hg h1 h2,
   isGrid_createTransitionMask sq nt ns wi twt twms dtm tmode⟩

theorem c8_witness :
    IsGrid ([[true]] : BooleanMask) 1 1 ∧
    IsGrid (distanceTransformEDT (fun _ => 0) [[true]] [1, 1]) 1 1 :=
  ⟨by decide,
   (c8_shapeInvariants (fun _ => 0) 1 1 [] 1 [[true]] [[true]] [1, 1] 1 1 1
     TransitionMode.OUTSIDE).2.1 (by decide) (by decide) (by decide)⟩

/-- Claim C3 (code bug): on a fully-selected grid in INSIDE mode with
positive transition widths, every distance stays `+inf`, so
`max_dist_inside = inf` passes the `== 0` check and the blend weight is
computed as `inf / inf = NaN` — outside the `[0, 1]` range the claim,
the spec and the function's own documentation (`weight mask (from 0.0
to 1.0)`) promise.  Shown here on the 1×1 fully-selected grid with
widths 1 trace / 1.0 ms and dt = 1.0 ms, for every `sqrt` model. -/
theorem c3_insideNaNCell (sq : ℚ → ℚ) :
    createTransitionMask sq (1, 1) [[true]] 1 1 1 TransitionMode.INSIDE =
      [[Flt.nan]] := by
  rw [createTransitionMask, if_neg (by norm_num)]
  rfl

/-- Claim C2: for a non-empty volume, an empty target window — or a
window whose rasterised mask has no true cell — makes
`amplifySeismicWindow` return normally (no error) with the input volume
unchanged, an all-ones multiplier mask and an all-false window mask. -/
theorem c2_noopReturn (sq : ℚ → ℚ) (data : SeismicData)
    (dt sf twms awms : ℚ) (tw : List Point) (mode : ProcessingMode)
    (twt awt : ℤ) (tmode : TransitionMode)
    (hd : data ≠ []) (h0 : data.headD [] ≠ [])
    (hno : tw = [] ∨ ((createWindowMask (data.length, (data.headD []).length)
        tw dt).any fun row => row.any id) = false) :
    amplifySeismicWindow sq data dt tw mode sf twt twms tmode awt awms =
      .ok { output_data := data.map fun row => row.map Flt.fin
            multiplier_mask := List.replicate data.length
              (List.replicate (data.headD []).length (Flt.fin 1))
            window_indices := List.replicate data.length
              (List.replicate (data.headD []).length false) } := by
  rw [amplifySeismicWindow, if_neg (not_or.mpr ⟨hd, h0⟩)]
  by_cases htw : tw = []
  · rw [if_pos htw]
    rfl
  · rcases hno with rfl | hany
    · exact absurd rfl htw
    · rw [if_neg htw, if_pos hany]
      rfl

theorem c2_witness :
    (([[1]] : SeismicData) ≠ []) ∧ (([[1]] : SeismicData).headD [] ≠ []) ∧
    (([] : List Point) = [] ∨
      ((createWindowMask (([[1]] : SeismicData).length,
          (([[1]] : SeismicData).headD []).length) [] 1).any fun row =>
        row.any id) = false) ∧
    (amplifySeismicWindow (fun _ => 0) [[1]] 1 [] ProcessingMode.SCALE 2 0 0
        TransitionMode.OUTSIDE 0 0 =
      .ok { output_data := ([[1]] : SeismicData).map fun row =>
              row.map Flt.fin
            multiplier_mask := List.replicate ([[1]] : SeismicData).length
              (List.replicate (([[1]] : SeismicData).headD []).length
                (Flt.fin 1))
            window_indices := List.replicate ([[1]] : SeismicData).length
              (List.replicate (([[1]] : SeismicData).headD []).length
                false) }) :=
  ⟨by decide, by decide, Or.inl rfl,
   c2_noopReturn (fun _ => 0) [[1]] 1 2 0 0 [] ProcessingMode.SCALE 0 0
     TransitionMode.OUTSIDE (by decide) (by decide) (Or.inl rfl)⟩

/-- Claim C1: on the non-no-op path, every cell of the returned
multiplier mask is exactly `1 + blendWeight·(gain − 1)` for the blend
weight produced by `createTransitionMask` and the gain produced by the
target-amplification computation, and every cell of the returned output
is exactly `input · multiplier`; no other transformation is applied to
any cell. -/
theorem c1_multiplierIdentity (sq : ℚ → ℚ) (data : SeismicData)
    (dt sf twms awms : ℚ) (tw : List Point) (mode : ProcessingMode)
    (twt awt : ℤ) (tmode : TransitionMode)
    (hd : data ≠ []) (h0 : data.headD [] ≠ []) (htw : tw ≠ [])
    (hany : ((createWindowMask (data.length, (data.headD []).length) tw
      dt).any fun row => row.any id) = true) :
    ∃ r, amplifySeismicWindow sq data dt tw mode sf twt twms tmode awt awms =
        .ok r ∧
      ∀ i j, i < data.length → j < (data.headD []).length →
        get2 r.multiplier_mask i j (Flt.fin 0) =
          Flt.addQ 1 (Flt.mulQ
            (get2 (createTransitionMask sq
                (data.length, (data.headD []).length)
                (createWindowMask (data.length, (data.headD []).length) tw dt)
                twt twms dt tmode) i j (Flt.fin 0))
            (targetAmplification sq data dt
              (createWindowMask (data.length, (data.headD []).length) tw dt)
              mode sf awt awms - 1)) ∧
        get2 r.output_data i j (Flt.fin 0) =
          Flt.mulQF (get2 data i j 0)
            (get2 r.multiplier_mask i j (Flt.fin 0)) := by
  have hne : ¬ ((createWindowMask (data.length, (data.headD []).length) tw
      dt).any fun row => row.any id) = false := by
    simp only [hany]
    decide
  refine ⟨mainResult sq data dt tw mode sf twt twms tmode awt awms, ?_,
    fun i j hi hj => ⟨?_, ?_⟩⟩
  · rw [amplifySeismicWindow, if_neg (not_or.mpr ⟨hd, h0⟩), if_neg htw,
      if_neg hne]
  · rw [mainResult_multiplier_mask]
    exact get2_rangeMap _ _ _ i j _ hi hj
  · rw [mainResult_output_data]
    exact get2_rangeMap _ _ _ i j _ hi hj

theorem c1_witness :
    (([[1]] : SeismicData) ≠ []) ∧ (([[1]] : SeismicData).headD [] ≠ []) ∧
    (([⟨0, 0⟩] : List Point) ≠ []) ∧
    (((createWindowMask (([[1]] : SeismicData).length,
        (([[1]] : SeismicData).headD []).length) [⟨0, 0⟩] 1).any fun row =>
      row.any id) = true) ∧
    (∃ r, amplifySeismicWindow (fun _ => 0) [[1]] 1 [⟨0, 0⟩]
        ProcessingMode.SCALE 2 0 0 TransitionMode.OUTSIDE 0 0 = .ok r ∧
      ∀ i j, i < ([[1]] : SeismicData).length →
        j < (([[1]] : SeismicData).headD []).length →
        get2 r.multiplier_mask i j (Flt.fin 0) =
          Flt.addQ 1 (Flt.mulQ
            (get2 (createTransitionMask (fun _ => 0)
                (([[1]] : SeismicData).length,
                  (([[1]] : SeismicData).headD []).length)
                (createWindowMask (([[1]] : SeismicData).length,
                  (([[1]] : SeismicData).headD []).length) [⟨0, 0⟩] 1)
                0 0 1 TransitionMode.OUTSIDE) i j (Flt.fin 0))
            (targetAmplification (fun _ => 0) [[1]] 1
              (createWindowMask (([[1]] : SeismicData).length,
                (([[1]] : SeismicData).headD []).length) [⟨0, 0⟩] 1)
              ProcessingMode.SCALE 2 0 0 - 1)) ∧
        get2 r.output_data i j (Flt.fin 0) =
          Flt.mulQF (get2 ([[1]] : SeismicData) i j 0)
            (get2 r.multiplier_mask i j (Flt.fin 0))) :=
  ⟨by decide, by decide, by decide,
   any_of_get2 0 0 ((get2_pointMask 1 1 ⟨0, 0⟩ 1 0 0 (by norm_num)
     (by norm_num)).mpr
       ⟨by norm_num, by rw [ratTrunc, if_pos (by norm_num)]; norm_num⟩),
   c1_multiplierIdentity (fun _ => 0) [[1]] 1 2 0 0 [⟨0, 0⟩]
     ProcessingMode.SCALE 0 0 TransitionMode.OUTSIDE (by decide) (by decide)
     (by decide)
     (any_of_get2 0 0 ((get2_pointMask 1 1 ⟨0, 0⟩ 1 0 0 (by norm_num)
       (by norm_num)).mpr
         ⟨by norm_num, by rw [ratTrunc, if_pos (by norm_num)]; norm_num⟩))⟩

end Amptune
